import Mathlib

/-!
Verification development for the jellyfin-renamer script
(src/jellyfin-renamer.py).  The Python source is shallowly embedded:

* strings are Lean `String`s, with all scanning implemented over `List Char`
  so that everything reduces inside the kernel;
* the handful of regular expressions the script uses are embedded as the
  specific leftmost-match scanners they denote (Python `re.search` finds the
  leftmost match; the greedy `\d+` quantifiers never backtrack here because
  the character class that follows them is disjoint from `\d`);
* the mutable `Show` dataclass and the parser's nonlocal state become an
  explicit state record threaded through a fuel-indexed loop (the fuel is an
  upper bound on the loop measure; it is never exhausted on real inputs);
* the TMDB resolver's global caches, negative-lookup set and network side
  effects become an explicit `TmdbSt` state with a network-request counter
  and a prompt counter, and the remote catalog becomes a `TmdbWorld` of
  response functions (`none` models a transport error, an error-flagged
  response, or a response without the required key);
* the interactive disambiguation prompt, which in Python re-prompts until the
  user enters an in-range 1-based selection, is modelled by a selection
  function giving the eventually-entered (0-based) index.
-/

namespace JellyfinRenamer

/-! ## Character and string helpers (Python semantics over `List Char`) -/

/-- Whitespace characters matched by Python's `\s` for the ASCII range. -/
def isSpaceC (c : Char) : Bool :=
  c = ' ' || c = '\t' || c = '\n' || c = '\r' || c = '\x0b' || c = '\x0c'

/-- Characters collapsed by `replace_separators_with_spaces` (`[._\s]+`). -/
def sepChar (c : Char) : Bool :=
  c = '.' || c = '_' || isSpaceC c

/-- Accented letters kept by `remove_disallowed_chars`. -/
def accentChar (c : Char) : Bool :=
  c = 'å' || c = 'ä' || c = 'ö' || c = 'ũ' || c = 'ỹ' || c = 'ẽ' || c = 'ß'

/-- Characters kept by `remove_disallowed_chars`
(`[^a-zA-Z0-9åäöũỹẽß\s\(\)\[\]\-]` is erased). -/
def allowedChar (c : Char) : Bool :=
  c.isAlpha || c.isDigit || accentChar c || isSpaceC c ||
    c = '(' || c = ')' || c = '[' || c = ']' || c = '-'

/-- Word characters for Python's `\b` over the script's alphabet. -/
def isWordChar (c : Char) : Bool :=
  c.isAlpha || c.isDigit || accentChar c || c = '_'

/-- ASCII lowercase of one character (Python `str.lower` on the script's
ASCII tokens; the accented letters in play are already lowercase). -/
def lowerC (c : Char) : Char :=
  if 'A' ≤ c && c ≤ 'Z' then Char.ofNat (c.toNat + 32) else c

/-- ASCII uppercase of one character (Python `str.upper`). -/
def upperC (c : Char) : Char :=
  if 'a' ≤ c && c ≤ 'z' then Char.ofNat (c.toNat - 32) else c

/-- Case-insensitive prefix test over char lists. -/
def icasePre : List Char → List Char → Bool
  | [], _ => true
  | _ :: _, [] => false
  | c :: cs, d :: ds => (lowerC c == lowerC d) && icasePre cs ds

/-- Case-insensitive substring test (used for the featurette keyword scan). -/
def icaseContains (pat : List Char) : List Char → Bool
  | [] => icasePre pat []
  | c :: cs => icasePre pat (c :: cs) || icaseContains pat cs

/-- Auxiliary for `replSep`: the flag records whether the previous character
was a separator (so a run collapses to a single space). -/
def replSepAux : Bool → List Char → List Char
  | _, [] => []
  | inSep, c :: cs =>
    if sepChar c then
      if inSep then replSepAux true cs else ' ' :: replSepAux true cs
    else c :: replSepAux false cs

/-- Python `re.sub(r"[._\s]+", " ", s)` --- `replace_separators_with_spaces`. -/
def replSep (l : List Char) : List Char := replSepAux false l

/-- Auxiliary for `collapseWs`. -/
def collapseWsAux : Bool → List Char → List Char
  | _, [] => []
  | inWs, c :: cs =>
    if isSpaceC c then
      if inWs then collapseWsAux true cs else ' ' :: collapseWsAux true cs
    else c :: collapseWsAux false cs

/-- Python `re.compile(r"\s+").sub(" ", s)`, used inside `exec_regex`. -/
def collapseWs (l : List Char) : List Char := collapseWsAux false l

/-- Drop trailing characters satisfying `p`. -/
def dropRightWhile (p : Char → Bool) (l : List Char) : List Char :=
  (l.reverse.dropWhile p).reverse

/-- Python `str.strip(chars)`: remove the given characters from both ends. -/
def stripChars (set : List Char) (l : List Char) : List Char :=
  dropRightWhile (fun c => set.contains c) (l.dropWhile (fun c => set.contains c))

/-- Python `str.strip()` (whitespace from both ends). -/
def trimWs (l : List Char) : List Char :=
  dropRightWhile isSpaceC (l.dropWhile isSpaceC)

/-- Python `str.find`: index of the first occurrence of `pat`, or `-1`.
An empty pattern is found at index 0, as in Python. -/
def strFindAux (pat : List Char) : Nat → List Char → Int
  | i, [] => if pat = [] then (i : Int) else -1
  | i, c :: cs => if pat.isPrefixOf (c :: cs) then (i : Int) else strFindAux pat (i + 1) cs

/-- Python `hay.find(pat)` for strings. -/
def strFind (hay pat : String) : Int := strFindAux pat.toList 0 hay.toList

/-- Substring containment, `hay.find(pat) != -1`. -/
def containsSub (hay pat : String) : Bool := strFind hay pat ≠ -1

/-- Python `str.replace(pat, "")` (all non-overlapping occurrences, scanning
left to right).  Fuel-indexed; the fuel is the haystack length.  The script
only ever erases nonempty previously-matched substrings, so the empty-pattern
case (which Python treats specially) is modelled as the identity. -/
def eraseSubAux (pat : List Char) : Nat → List Char → List Char
  | _, [] => []
  | 0, hay => hay
  | fuel + 1, c :: cs =>
    if pat ≠ [] ∧ pat.isPrefixOf (c :: cs) then
      eraseSubAux pat fuel ((c :: cs).drop pat.length)
    else c :: eraseSubAux pat fuel cs

/-- Erase every occurrence of `pat` (Python `part.replace(removed_part, "")`). -/
def eraseSub (pat : List Char) (hay : List Char) : List Char :=
  eraseSubAux pat hay.length hay

/-- Python `int(s)`: optional surrounding whitespace, optional sign, at least
one digit.  (Python also accepts underscores between digits; none of the
script's call sites can produce one, since `_` was replaced by a space before
any number is parsed.) -/
def pyIntDigits : List Char → Option Nat
  | [] => none
  | l =>
    if l.all Char.isDigit then
      some (l.foldl (fun a c => a * 10 + (c.toNat - '0'.toNat)) 0)
    else none

/-- Python `int(s)` on a character list. -/
def pyInt (l : List Char) : Option Int :=
  let l := trimWs l
  match l with
  | '-' :: rest => (pyIntDigits rest).map (fun n => -(n : Int))
  | '+' :: rest => (pyIntDigits rest).map (fun n => (n : Int))
  | _ => (pyIntDigits l).map (fun n => (n : Int))

/-- Python `s.split(sep)` for a one-character separator, keeping empty
pieces. -/
def splitOnCharAux (sep : Char) : List Char → List Char → List (List Char)
  | acc, [] => [acc.reverse]
  | acc, c :: cs =>
    if c = sep then acc.reverse :: splitOnCharAux sep [] cs
    else splitOnCharAux sep (c :: acc) cs

/-- Split a char list on a single-character separator. -/
def splitOnChar (sep : Char) (l : List Char) : List (List Char) :=
  splitOnCharAux sep [] l

/-- Index of the last occurrence of `c` (Python `str.rfind`), or `-1`. -/
def rfindChar (c : Char) (l : List Char) : Int :=
  match strFindAux [c] 0 l.reverse with
  | -1 => -1
  | i => (l.length : Int) - 1 - i

/-! ## Data model (the `MediaType`, `ShowType`, `FeaturetteTag` enums and the
`Show` dataclass of the script) -/

/-- Python `MediaType` enum. -/
inductive MediaType where
  | MOVIE
  | SHOW
deriving DecidableEq

/-- Python `ShowType` enum. -/
inductive ShowType where
  | FEATURETTE
  | SHOW
  | SAMPLE
deriving DecidableEq

/-- Python `FeaturetteTag` enum. -/
inductive FeaturetteTag where
  | BEHIND_THE_SCENES
  | INTERVIEW
  | MAKING_OF
  | PROMO
  | TRAILER
  | TEASER
  | WEBISODE
  | DELETED_SCENE
  | EXTRA
deriving DecidableEq

/-- Python `Show` dataclass, with the dataclass defaults. -/
structure Show where
  media_type : MediaType := MediaType.SHOW
  title : Option String := none
  name : Option String := none
  extension : String := ""
  show_type : Option ShowType := none
  featurette_tags : List FeaturetteTag := []
  season : Option Int := none
  episode : Option Int := none
  episode_end : Option Int := none
  resolution : Option String := none
  year : Option Int := none
  fullpath : Option String := none
  subtitle_paths : List String := []
  tmdb_id : Option Int := none
deriving DecidableEq

/-! ## The regular expressions of `parse_show_or_movie_path`, embedded as
leftmost-match scanners.  Each `try...` function decides whether the pattern
matches at the head of the list and, if so, returns the match length.
`searchPat` then finds the leftmost match. -/

/-- Length of the leading run of ASCII digits (`\d+` is greedy; no
backtracking is needed because the following literal is never a digit). -/
def digitsRun : List Char → Nat
  | [] => 0
  | c :: cs => if c.isDigit then digitsRun cs + 1 else 0

/-- Pattern `featurettes?` (IGNORECASE) at the head: `featurette` plus a
greedy optional `s`. -/
def tryFeaturette (l : List Char) : Option Nat :=
  if icasePre "featurette".toList l then
    match l.drop 10 with
    | c :: _ => if lowerC c = 's' then some 11 else some 10
    | [] => some 10
  else none

/-- Pattern `sample` (IGNORECASE) at the head. -/
def trySample (l : List Char) : Option Nat :=
  if icasePre "sample".toList l then some 6 else none

/-- Core of the year pattern after the optional opening bracket:
`\d{4}[^p][\]\)]?`.  Returns the matched length. -/
def yearCore (l : List Char) : Option Nat :=
  if (l.take 4).length = 4 && (l.take 4).all Char.isDigit then
    match l.drop 4 with
    | [] => none
    | c :: rest =>
      if c = 'p' then none
      else
        match rest with
        | c2 :: _ => if c2 = ')' || c2 = ']' then some 6 else some 5
        | [] => some 5
  else none

/-- Pattern `[\[\(]?\d{4}[^p][\]\)]?` at the head.  The optional bracket is
greedy; if taking it fails, the empty alternative also fails because a
bracket is not a digit. -/
def tryYear (l : List Char) : Option Nat :=
  match l with
  | [] => none
  | c :: rest =>
    if c = '(' || c = '[' then (yearCore rest).map (· + 1)
    else yearCore l

/-- Pattern `S\d+E\d+` (IGNORECASE) at the head. -/
def trySE (l : List Char) : Option Nat :=
  match l with
  | [] => none
  | c :: rest =>
    if lowerC c = 's' then
      let n1 := digitsRun rest
      if n1 = 0 then none
      else
        match rest.drop n1 with
        | [] => none
        | e :: rest2 =>
          if lowerC e = 'e' then
            let n2 := digitsRun rest2
            if n2 = 0 then none else some (1 + n1 + 1 + n2)
          else none
    else none

/-- Pattern `S\d+E\d+\-E\d+` (IGNORECASE) at the head. -/
def trySEE (l : List Char) : Option Nat :=
  match l with
  | [] => none
  | c :: rest =>
    if lowerC c = 's' then
      let n1 := digitsRun rest
      if n1 = 0 then none
      else
        match rest.drop n1 with
        | [] => none
        | e :: rest2 =>
          if lowerC e = 'e' then
            let n2 := digitsRun rest2
            if n2 = 0 then none
            else
              match rest2.drop n2 with
              | '-' :: rest3 =>
                match rest3 with
                | e2 :: rest4 =>
                  if lowerC e2 = 'e' then
                    let n3 := digitsRun rest4
                    if n3 = 0 then none else some (1 + n1 + 1 + n2 + 2 + n3)
                  else none
                | [] => none
              | _ => none
          else none
    else none

/-- Pattern `season \d+` (IGNORECASE) at the head. -/
def trySeason (l : List Char) : Option Nat :=
  if icasePre "season ".toList l then
    let n := digitsRun (l.drop 7)
    if n = 0 then none else some (7 + n)
  else none

/-- Pattern `8k|4k|4320p|2160p|1080p|720p|480p` (IGNORECASE) at the head;
alternatives are tried left to right, as Python does at each position. -/
def tryRes (l : List Char) : Option Nat :=
  if icasePre "8k".toList l then some 2
  else if icasePre "4k".toList l then some 2
  else if icasePre "4320p".toList l then some 5
  else if icasePre "2160p".toList l then some 5
  else if icasePre "1080p".toList l then some 5
  else if icasePre "720p".toList l then some 4
  else if icasePre "480p".toList l then some 4
  else none

/-- Leftmost match of a head-matcher: Python `regex.search`.  Returns the
text before the match, the matched text, and the text after it. -/
def searchPatAux (tryAt : List Char → Option Nat) :
    List Char → List Char → Option (List Char × List Char × List Char)
  | acc, rest =>
    match tryAt rest with
    | some n => some (acc.reverse, rest.take n, rest.drop n)
    | none =>
      match rest with
      | [] => none
      | c :: cs => searchPatAux tryAt (c :: acc) cs

/-- Leftmost match of a head-matcher over a whole list. -/
def searchPat (tryAt : List Char → Option Nat) (l : List Char) :
    Option (List Char × List Char × List Char) :=
  searchPatAux tryAt [] l

/-- Python `exec_regex`: on a match, remove the matched span and collapse
whitespace runs in the remainder; otherwise return the input unchanged. -/
def execRegex (tryAt : List Char → Option Nat) (l : List Char) :
    List Char × Option (List Char) :=
  match searchPat tryAt l with
  | none => (l, none)
  | some (pre, m, post) => (collapseWs (pre ++ post), some m)

/-- Python `re.compile(r"\b-\b").split(part)`: split at every hyphen whose
neighbours are both word characters, dropping the hyphen. -/
def splitWordHyphenAux : List Char → List Char → List (List Char)
  | acc, [] => [acc.reverse]
  | acc, c :: cs =>
    if c = '-' then
      if (match acc with | a :: _ => isWordChar a | [] => false) &&
         (match cs with | b :: _ => isWordChar b | [] => false) then
        acc.reverse :: splitWordHyphenAux [] cs
      else splitWordHyphenAux (c :: acc) cs
    else splitWordHyphenAux (c :: acc) cs

/-- Split on word-boundary hyphens. -/
def splitWordHyphen (l : List Char) : List (List Char) :=
  splitWordHyphenAux [] l

/-! ## Deny-list handling (`remove_parts`): whole-word, case-insensitive
erasure, and the anchored whole-word match used on the final segment.  The
deny terms come from an external file; the spec describes them as literal
terms matched as whole words, which is how they are embedded here. -/

/-- Does the (nonempty) term match at the head of `rest`, with a word
boundary on each side?  `prev` is the character just before `rest`. -/
def denyMatchHere (d : List Char) (prev : Option Char) (rest : List Char) : Bool :=
  if d = [] then false
  else
    icasePre d rest &&
    ((match prev with | some c => isWordChar c | none => false) !=
      (match rest with | c :: _ => isWordChar c | [] => false)) &&
    (isWordChar (rest.getD (d.length - 1) ' ') !=
      (match rest.drop d.length with | c :: _ => isWordChar c | [] => false))

/-- Auxiliary for `denyErase`, scanning left to right, non-overlapping. -/
def denyEraseAux (d : List Char) : Option Char → Nat → List Char → List Char
  | _, 0, rest => rest
  | _, _ + 1, [] => []
  | prev, fuel + 1, c :: cs =>
    if denyMatchHere d prev (c :: cs) then
      denyEraseAux d (some (d.getLastD ' ')) fuel ((c :: cs).drop d.length)
    else c :: denyEraseAux d prev fuel cs

/-- Python `re.compile(r"\b" + term + r"\b", re.IGNORECASE).sub("", part)`.
An empty term (a blank deny-list line) substitutes empty matches by the
empty string, i.e. leaves the text unchanged. -/
def denyErase (d : List Char) (l : List Char) : List Char :=
  denyEraseAux d none l.length l

/-- Python `re.compile(r"\b" + term + r"\b", re.IGNORECASE).match(part)`:
the pattern must match at the start of the text.  A start-of-string `\b`
holds exactly when the first character is a word character, so an empty term
matches (emptily) exactly in that case. -/
def denyMatchStart (d : List Char) (part : List Char) : Bool :=
  if d = [] then (match part with | c :: _ => isWordChar c | [] => false)
  else denyMatchHere d none part

/-! ## The parser loop of `parse_show_or_movie_path`

The Python loop mutates `show`, a `removed_parts` list, a `first` flag and
(through a scoping quirk) the local variable `resolution`, which survives
from one iteration to the next once `show.resolution` is set.  `PState`
carries all of that; `lastRes` is that stale local variable. -/

/-- Mutable state of the segment loop. -/
structure PState where
  s : Show
  removedParts : List (List Char) := []
  first : Bool := true
  lastRes : Option (List Char) := none

/-- Featurette-marker extraction (first extraction in the loop body). -/
def applyFeaturette (st : PState) (part : List Char) : PState × List Char :=
  match execRegex tryFeaturette part with
  | (part, none) => (st, part)
  | (part, some m) =>
    ({ st with s := { st.s with show_type := some ShowType.FEATURETTE },
               removedParts := st.removedParts ++ [m] }, part)

/-- Sample-marker extraction. -/
def applySample (st : PState) (part : List Char) : PState × List Char :=
  match execRegex trySample part with
  | (part, none) => (st, part)
  | (part, some m) =>
    ({ st with s := { st.s with show_type := some ShowType.SAMPLE },
               removedParts := st.removedParts ++ [m] }, part)

/-- Year extraction: the matched text is recorded in `removed_parts` before
the `int` conversion is attempted; a failed conversion is silently
discarded (`except: pass`). -/
def applyYear (st : PState) (part : List Char) : PState × List Char :=
  if st.s.year = none then
    match execRegex tryYear part with
    | (part, none) => (st, part)
    | (part, some m) =>
      let st := { st with removedParts := st.removedParts ++ [m] }
      match pyInt (stripChars "()[] ".toList m) with
      | some y => ({ st with s := { st.s with year := some y } }, part)
      | none => (st, part)
  else (st, part)

/-- First index of the two-character sequence `-E` (uppercase, as in the
Python literal `split("-E")`), splitting the list there. -/
def splitDashE : List Char → Option (List Char × List Char)
  | [] => none
  | '-' :: 'E' :: rest => some ([], rest)
  | c :: cs => (splitDashE cs).map (fun p => (c :: p.1, p.2))

/-- Python parse of a matched `S\d+E\d+\-E\d+` text after dropping the
leading `S`: `split("-E")` (which fails to unpack when the `-e` in the match
is lowercase), then `.upper().split("E")`, then three `int` conversions.
All-or-nothing, as the enclosing `try` makes it (the `int` calls cannot fail
on the digit strings the pattern guarantees). -/
def parseSEE (l : List Char) : Option (Int × Int × Int) :=
  match splitDashE l with
  | none => none
  | some (se, ee) =>
    match splitOnChar 'E' (se.map upperC) with
    | [d1, d2] =>
      match pyInt d1, pyInt d2, pyInt ee with
      | some a, some b, some c => some (a, b, c)
      | _, _, _ => none
    | _ => none

/-- Combined season+episode+range extraction. -/
def applySEE (st : PState) (part : List Char) : PState × List Char :=
  if st.s.season = none ∨ st.s.episode = none then
    match execRegex trySEE part with
    | (part, none) => (st, part)
    | (part, some m) =>
      let st := { st with removedParts := st.removedParts ++ [m] }
      match parseSEE (m.drop 1) with
      | some (a, b, c) =>
        ({ st with s := { st.s with season := some a, episode := some b,
                                    episode_end := some c } }, part)
      | none => (st, part)
  else (st, part)

/-- Python parse of a matched `S\d+E\d+` text after dropping the leading
`S`: `.upper().split("E")` then two `int` conversions. -/
def parseSE (l : List Char) : Option (Int × Int) :=
  match splitOnChar 'E' (l.map upperC) with
  | [d1, d2] =>
    match pyInt d1, pyInt d2 with
    | some a, some b => some (a, b)
    | _, _ => none
  | _ => none

/-- Season+episode extraction. -/
def applySE (st : PState) (part : List Char) : PState × List Char :=
  if st.s.season = none ∨ st.s.episode = none then
    match execRegex trySE part with
    | (part, none) => (st, part)
    | (part, some m) =>
      let st := { st with removedParts := st.removedParts ++ [m] }
      match parseSE (m.drop 1) with
      | some (a, b) =>
        ({ st with s := { st.s with season := some a, episode := some b } }, part)
      | none => (st, part)
  else (st, part)

/-- Explicit `season NN` extraction (`int(season[7:])`). -/
def applySeason (st : PState) (part : List Char) : PState × List Char :=
  if st.s.season = none then
    match execRegex trySeason part with
    | (part, none) => (st, part)
    | (part, some m) =>
      let st := { st with removedParts := st.removedParts ++ [m] }
      match pyInt (m.drop 7) with
      | some n => ({ st with s := { st.s with season := some n } }, part)
      | none => (st, part)
  else (st, part)

/-- Resolution extraction.  The second `if` in the source tests the local
variable `resolution`, which is only reassigned while `show.resolution` is
unset; afterwards the stale value from the earlier iteration is re-recorded
every iteration.  `st.lastRes` is that variable. -/
def applyResolution (st : PState) (part : List Char) : PState × List Char :=
  let pr : List Char × Option (List Char) :=
    if st.s.resolution = none then execRegex tryRes part else (part, st.lastRes)
  let part := pr.1
  let st := { st with lastRes := pr.2 }
  match pr.2 with
  | none => (st, part)
  | some m =>
    let st := { st with removedParts := st.removedParts ++ [m] }
    let res : String :=
      if m.map lowerC = "4k".toList then "2160p"
      else if m.map lowerC = "8k".toList then "4320p"
      else String.mk m
    ({ st with s := { st.s with resolution := some res } }, part)

/-- Final-segment handling: text before the last `(` becomes `name`;
otherwise `name` is set unless a deny term whole-word-matches at the start
of the remaining text. -/
def applyLastName (removeParts : List (List Char)) (st : PState)
    (part : List Char) : PState :=
  if part.contains '(' then
    match rfindChar '(' part with
    | Int.ofNat i =>
      { st with s := { st.s with name := some (String.mk (trimWs (part.take i))) } }
    | _ => st
  else
    if removeParts.any (fun d => denyMatchStart d part) then st
    else { st with s := { st.s with name := some (String.mk (trimWs part)) } }

/-- The seven extractions of the loop body, in source order. -/
def applyAll (st : PState) (part : List Char) : PState × List Char :=
  let sp := applyFeaturette st part
  let sp := applySample sp.1 sp.2
  let sp := applyYear sp.1 sp.2
  let sp := applySEE sp.1 sp.2
  let sp := applySE sp.1 sp.2
  let sp := applySeason sp.1 sp.2
  applyResolution sp.1 sp.2

/-- Upper bound on the number of loop iterations: a segment of length `L`
accounts for `2 L + 1`; splitting on a word-boundary hyphen strictly
decreases the sum, and every other iteration consumes a segment. -/
def parseFuel (parts : List (List Char)) : Nat :=
  parts.foldl (fun a p => a + 2 * p.length + 1) 1

/-- The `while len(parts) > 0` loop of `parse_show_or_movie_path`. -/
def parseLoop (removeParts : List (List Char)) :
    Nat → List (List Char) → PState → PState
  | 0, _, st => st
  | _ + 1, [], st => st
  | fuel + 1, part :: parts, st =>
    let part := replSep part
    let part := part.filter allowedChar
    let subparts := splitWordHyphen part
    if subparts.length > 1 then
      parseLoop removeParts fuel (subparts ++ parts) st
    else
      let part := st.removedParts.foldl (fun p r => eraseSub r p) part
      let part := removeParts.foldl (fun p d => denyErase d p) part
      if part = [] then parseLoop removeParts fuel parts st
      else
        let sp := applyAll st part
        let st := sp.1
        let part := sp.2
        if st.first then
          parseLoop removeParts fuel parts
            { st with first := false,
                      s := { st.s with title := some (String.mk (trimWs part)) } }
        else
          if parts = [] then applyLastName removeParts st part
          else parseLoop removeParts fuel parts st

/-- Recognized video container extensions. -/
def videoExts : List String :=
  ["mp4", "mkv", "avi", "webm", "flv", "mov", "wmv", "m4v", "3gp", "3g2"]

/-- Python `Path(p).suffix[1:]`: the extension of the last path component,
empty when the component has no dot, starts with its only dot, or ends with
the dot. -/
def pathExtension (l : List Char) : List Char :=
  let comp := (l.reverse.takeWhile (· ≠ '/')).reverse
  let rname := comp.reverse
  let ext := (rname.takeWhile (· ≠ '.')).reverse
  if rname.contains '.' && ext.length ≠ 0 && ext.length + 1 ≠ comp.length then ext
  else []

/-- The featurette keyword detectors, in the source's fixed order. -/
def featuretteDetectors : List (String × FeaturetteTag) :=
  [("behind the", FeaturetteTag.BEHIND_THE_SCENES),
   ("interview", FeaturetteTag.INTERVIEW),
   ("making of", FeaturetteTag.MAKING_OF),
   ("promo", FeaturetteTag.PROMO),
   ("trailer", FeaturetteTag.TRAILER),
   ("teaser", FeaturetteTag.TEASER),
   ("webisode", FeaturetteTag.WEBISODE),
   ("deleted scene", FeaturetteTag.DELETED_SCENE),
   ("extra", FeaturetteTag.EXTRA)]

/-- The featurette keyword re-scan of the (extension-stripped) full path,
appending each detected tag in the source's fixed order. -/
def applyFeaturetteTags (s : Show) (pathT : List Char) : Show :=
  featuretteDetectors.foldl
    (fun s pt =>
      if icaseContains pt.1.toList pathT then
        { s with featurette_tags := s.featurette_tags ++ [pt.2] }
      else s) s

/-- Python `parse_show_or_movie_path(path, media_type)`.  `removeParts` is
the deny list seeded from the optional `extra_disallowed.txt` file ( `[]`
when that file is absent). -/
def parse_show_or_movie_path (removeParts : List String) (path : String)
    (media_type : MediaType) : Option Show :=
  let pcs := path.toList
  let ext := pathExtension pcs
  let s0 : Show :=
    { media_type := media_type, show_type := some ShowType.SHOW,
      fullpath := some path, extension := String.mk ext }
  if videoExts.contains (String.mk ext) then
    let pathT := pcs.take (pcs.length - ext.length)
    let parts := splitOnChar '/' pathT
    let stFin := parseLoop (removeParts.map String.toList) (parseFuel parts)
      parts { s := s0 }
    let s := stFin.s
    let s :=
      if s.show_type = some ShowType.FEATURETTE then applyFeaturetteTags s pathT
      else s
    some s
  else none

/-! ## Multi-subtitle directory filter (record-assembly stage, `__main__`,
src/jellyfin-renamer.py lines 1212-1241) -/

/-- Python `f"S{n:02d}"`-style zero padding. -/
def pad2 (n : Int) : String :=
  if 0 ≤ n ∧ n < 10 then "0" ++ toString n else toString n

/-- The `season_episode` token built by the filter: `S<season:02d>` when the
season is set, followed by `E<episode:02d>` when the episode is set. -/
def seToken (season episode : Option Int) : String :=
  (match season with | some n => "S" ++ pad2 n | none => "") ++
  (match episode with | some n => "E" ++ pad2 n | none => "")

/-- Lowercase a string (ASCII, which covers the token's alphabet). -/
def lowerStr (str : String) : String := String.mk (str.toList.map lowerC)

/-- The loop condition `sub.find(season_episode) != -1 or
sub.find(season_episode.lower()) != -1`. -/
def subHasSE (se : String) (sub : String) : Bool :=
  containsSub sub se || containsSub sub (lowerStr se)

/-- Python truth test of `sub.find(show.title) or (show.name is not None and
sub.find(show.name))` over the subtitle list with early exit: an `int` is
truthy exactly when it is nonzero, so `find` contributes `True` unless the
needle sits at index 0 (including the not-found result `-1`). -/
def subMatchesName (title : String) (name : Option String)
    (subs : List String) : Bool :=
  subs.any (fun sub =>
    strFind sub title ≠ 0 ||
    (match name with | some n => strFind sub n ≠ 0 | none => false))

/-- The `for sub in old_subs` loop: the first subtitle containing the token
replaces the whole list; if none does, the original list is kept. -/
def subFilterLoop (se : String) (orig : List String) : List String → List String
  | [] => orig
  | sub :: rest => if subHasSE se sub then [sub] else subFilterLoop se orig rest

/-- The multi-subtitle filter applied when a record has more than one
candidate subtitle.  `matches_name` is computed by the source and never
consulted afterwards; it is kept here as the unused binding it is. -/
def subtitleFilter (title : String) (name : Option String)
    (season episode : Option Int) (subs : List String) : List String :=
  if subs.length > 1 then
    let _matches_name := subMatchesName title name subs
    subFilterLoop (seToken season episode) subs subs
  else subs

/-! ## Featurette bucket selection (`__main__`, src/jellyfin-renamer.py
lines 1306-1331) -/

/-- The `if/elif` chain choosing the featurette output directory. -/
def featuretteBucket (tags : List FeaturetteTag) : String :=
  if tags.length = 0 then "featurettes"
  else if tags.contains FeaturetteTag.BEHIND_THE_SCENES then "behind the scenes"
  else if tags.contains FeaturetteTag.INTERVIEW then "interview"
  else if tags.contains FeaturetteTag.MAKING_OF then "behind the scenes"
  else if tags.contains FeaturetteTag.DELETED_SCENE then "deleted scenes"
  else if tags.contains FeaturetteTag.EXTRA then "extras"
  else if tags.contains FeaturetteTag.PROMO then "other"
  else if tags.contains FeaturetteTag.TEASER then "other"
  else if tags.contains FeaturetteTag.TRAILER then "trailers"
  else if tags.contains FeaturetteTag.WEBISODE then "featurettes"
  else "other"

/-- The actual tag priority order realized by that chain, highest first. -/
def bucketPriority : List FeaturetteTag :=
  [FeaturetteTag.BEHIND_THE_SCENES, FeaturetteTag.INTERVIEW,
   FeaturetteTag.MAKING_OF, FeaturetteTag.DELETED_SCENE, FeaturetteTag.EXTRA,
   FeaturetteTag.PROMO, FeaturetteTag.TEASER, FeaturetteTag.TRAILER,
   FeaturetteTag.WEBISODE]

/-- The bucket each tag maps to when it is the deciding one. -/
def tagBucket : FeaturetteTag → String
  | FeaturetteTag.BEHIND_THE_SCENES => "behind the scenes"
  | FeaturetteTag.INTERVIEW => "interview"
  | FeaturetteTag.MAKING_OF => "behind the scenes"
  | FeaturetteTag.DELETED_SCENE => "deleted scenes"
  | FeaturetteTag.EXTRA => "extras"
  | FeaturetteTag.PROMO => "other"
  | FeaturetteTag.TEASER => "other"
  | FeaturetteTag.TRAILER => "trailers"
  | FeaturetteTag.WEBISODE => "featurettes"

/-! ## Subtitle language matching (`process_sub_names`, src/jellyfin-renamer.py
lines 1363-1444) -/

/-- The `LANGUAGES` table of the script, in its source (insertion)
order: canonical name paired with its list of code variants. -/
def LANGUAGES : List (String × List String) := [
  ("abkhazian", ["ab", "abk", "abk", "abk"]),
  ("afar", ["aa", "aar", "aar", "aar"]),
  ("afrikaans", ["af", "afr", "afr", "afr"]),
  ("akan", ["ak", "aka", "aka", "aka"]),
  ("albanian", ["sq", "sqi", "alb", "sqi"]),
  ("amharic", ["am", "amh", "amh", "amh"]),
  ("arabic", ["ar", "ara", "ara", "ara"]),
  ("aragonese", ["an", "arg", "arg", "arg"]),
  ("armenian", ["hy", "hye", "arm", "hye"]),
  ("assamese", ["as", "asm", "asm", "asm"]),
  ("avaric", ["av", "ava", "ava", "ava"]),
  ("avestan", ["ae", "ave", "ave", "ave"]),
  ("aymara", ["ay", "aym", "aym", "aym"]),
  ("azerbaijani", ["az", "aze", "aze", "aze"]),
  ("bambara", ["bm", "bam", "bam", "bam"]),
  ("bashkir", ["ba", "bak", "bak", "bak"]),
  ("basque", ["eu", "eus", "baq", "eus"]),
  ("belarusian", ["be", "bel", "bel", "bel"]),
  ("bengali", ["bn", "ben", "ben", "ben"]),
  ("bislama", ["bi", "bis", "bis", "bis"]),
  ("bosnian", ["bs", "bos", "bos", "bos"]),
  ("breton", ["br", "bre", "bre", "bre"]),
  ("bulgarian", ["bg", "bul", "bul", "bul"]),
  ("burmese", ["my", "mya", "bur", "mya"]),
  ("cambodian", ["K", "kuyu", "ki", "kik"]),
  ("catalan", ["ca", "cat", "cat", "cat"]),
  ("centralKhmer", ["km", "khm", "khm", "khm"]),
  ("chamorro", ["ch", "cha", "cha", "cha"]),
  ("chechen", ["ce", "che", "che", "che"]),
  ("chichewa", ["ny", "nya", "nya", "nya"]),
  ("chinese", ["zh", "zho", "chi", "zho"]),
  ("churchSlavonic", ["cu", "chu", "chu", "chu"]),
  ("chuvash", ["cv", "chv", "chv", "chv"]),
  ("cornish", ["kw", "cor", "cor", "cor"]),
  ("corsican", ["co", "cos", "cos", "cos"]),
  ("cree", ["cr", "cre", "cre", "cre"]),
  ("croatian", ["hr", "hrv", "hrv", "hrv"]),
  ("czech", ["cs", "ces", "cze", "ces"]),
  ("danish", ["da", "dan", "dan", "dan"]),
  ("divehi", ["dv", "div", "div", "div"]),
  ("dutch", ["nl", "nld", "dut", "nld"]),
  ("dzongkha", ["dz", "dzo", "dzo", "dzo"]),
  ("english", ["en", "eng", "eng", "eng"]),
  ("esperanto", ["eo", "epo", "epo", "epo"]),
  ("estonian", ["et", "est", "est", "est"]),
  ("ewe", ["ee", "ewe", "ewe", "ewe"]),
  ("faroese", ["fo", "fao", "fao", "fao"]),
  ("fijian", ["fj", "fij", "fij", "fij"]),
  ("finnish", ["fi", "fin", "fin", "fin"]),
  ("french", ["fr", "fra", "fre", "fra"]),
  ("fulah", ["ff", "ful", "ful", "ful"]),
  ("gaelic", ["gd", "gla", "gla", "gla"]),
  ("galician", ["gl", "glg", "glg", "glg"]),
  ("ganda", ["lg", "lug", "lug", "lug"]),
  ("georgian", ["ka", "kat", "geo", "kat"]),
  ("german", ["de", "deu", "ger", "deu"]),
  ("greek", ["el", "ell", "gre", "ell"]),
  ("guarani", ["gn", "grn", "grn", "grn"]),
  ("gujarati", ["gu", "guj", "guj", "guj"]),
  ("haitian", ["ht", "hat", "hat", "hat"]),
  ("hausa", ["ha", "hau", "hau", "hau"]),
  ("hebrew", ["he", "heb", "heb", "heb"]),
  ("herero", ["hz", "her", "her", "her"]),
  ("hindi", ["hi", "hin", "hin", "hin"]),
  ("hiriMotu", ["ho", "hmo", "hmo", "hmo"]),
  ("hungarian", ["hu", "hun", "hun", "hun"]),
  ("icelandic", ["is", "isl", "ice", "isl"]),
  ("ido", ["io", "ido", "ido", "ido"]),
  ("igbo", ["ig", "ibo", "ibo", "ibo"]),
  ("indonesian", ["id", "ind", "ind", "ind"]),
  ("interlingua", ["ia", "ina", "ina", "ina"]),
  ("interlingue", ["ie", "ile", "ile", "ile"]),
  ("inuktitut", ["iu", "iku", "iku", "iku"]),
  ("inupiaq", ["ik", "ipk", "ipk", "ipk"]),
  ("irish", ["ga", "gle", "gle", "gle"]),
  ("italian", ["it", "ita", "ita", "ita"]),
  ("japanese", ["ja", "jpn", "jpn", "jpn"]),
  ("javanese", ["jv", "jav", "jav", "jav"]),
  ("kalaallisut", ["kl", "kal", "kal", "kal"]),
  ("kannada", ["kn", "kan", "kan", "kan"]),
  ("kanuri", ["kr", "kau", "kau", "kau"]),
  ("kashmiri", ["ks", "kas", "kas", "kas"]),
  ("kazakh", ["kk", "kaz", "kaz", "kaz"]),
  ("kikuyu", ["rw", "kin", "kin", "kin"]),
  ("kirghiz", ["ky", "kir", "kir", "kir"]),
  ("komi", ["kv", "kom", "kom", "kom"]),
  ("kongo", ["kg", "kon", "kon", "kon"]),
  ("korean", ["ko", "kor", "kor", "kor"]),
  ("kuanyama", ["kj", "kua", "kua"]),
  ("kurdish", ["ku", "kur", "kur", "kur"]),
  ("lao", ["lo", "lao", "lao", "lao"]),
  ("latin", ["la", "lat", "lat", "lat"]),
  ("latvian", ["lv", "lav", "lav", "lav"]),
  ("limburgan", ["li", "lim", "lim", "lim"]),
  ("lingala", ["ln", "lin", "lin", "lin"]),
  ("lithuanian", ["lt", "lit", "lit", "lit"]),
  ("lubaKatanga", ["lu", "lub", "lub", "lub"]),
  ("luxembourgish", ["lb", "ltz", "ltz", "ltz"]),
  ("macedonian", ["mk", "mkd", "mac", "mkd"]),
  ("malagasy", ["mg", "mlg", "mlg", "mlg"]),
  ("malay", ["ms", "msa", "may", "msa"]),
  ("malayalam", ["ml", "mal", "mal", "mal"]),
  ("maltese", ["mt", "mlt", "mlt", "mlt"]),
  ("manx", ["gv", "glv", "glv", "glv"]),
  ("maori", ["mi", "mri", "mao", "mri"]),
  ("marathi", ["mr", "mar", "mar", "mar"]),
  ("marshallese", ["mh", "mah", "mah", "mah"]),
  ("mongolian", ["mn", "mon", "mon", "mon"]),
  ("nauru", ["na", "nau", "nau", "nau"]),
  ("navajo", ["nv", "nav", "nav", "nav"]),
  ("ndonga", ["ng", "ndo", "ndo", "ndo"]),
  ("nepali", ["ne", "nep", "nep", "nep"]),
  ("northernSami", ["se", "sme", "sme", "sme"]),
  ("northNdebele", ["nd", "nde", "nde", "nde"]),
  ("norwegian", ["no", "nor", "nor", "nor"]),
  ("occitan", ["oc", "oci", "oci", "oci"]),
  ("ojibwa", ["oj", "oji", "oji", "oji"]),
  ("oriya", ["or", "ori", "ori", "ori"]),
  ("oromo", ["om", "orm", "orm", "orm"]),
  ("ossetian", ["os", "oss", "oss", "oss"]),
  ("pali", ["pi", "pli", "pli", "pli"]),
  ("pashto", ["ps", "pus", "pus", "pus"]),
  ("persian", ["fa", "fas", "per", "fas"]),
  ("polish", ["pl", "pol", "pol", "pol"]),
  ("portuguese", ["pt", "por", "por", "por"]),
  ("punjabi", ["pa", "pan", "pan", "pan"]),
  ("quechua", ["qu", "que", "que", "que"]),
  ("romanian", ["ro", "ron", "rum", "ron"]),
  ("romansh", ["rm", "roh", "roh", "roh"]),
  ("rundi", ["rn", "run", "run", "run"]),
  ("russian", ["ru", "rus", "rus", "rus"]),
  ("samoan", ["sm", "smo", "smo", "smo"]),
  ("sango", ["sg", "sag", "sag", "sag"]),
  ("sanskrit", ["sa", "san", "san", "san"]),
  ("sardinian", ["sc", "srd", "srd", "srd"]),
  ("serbian", ["sr", "srp", "srp", "srp"]),
  ("shona", ["sn", "sna", "sna", "sna"]),
  ("sichuanYi", ["ii", "iii", "iii", "iii"]),
  ("sindhi", ["sd", "snd", "snd", "snd"]),
  ("sinhala", ["si", "sin", "sin", "sin"]),
  ("slovak", ["sk", "slk", "slo", "slk"]),
  ("slovenian", ["sl", "slv", "slv", "slv"]),
  ("somali", ["so", "som", "som", "som"]),
  ("southernSotho", ["st", "sot", "sot", "sot"]),
  ("southNdebele", ["nr", "nbl", "nbl", "nbl"]),
  ("spanish", ["es", "spa", "spa", "spa"]),
  ("sundanese", ["su", "sun", "sun", "sun"]),
  ("swahili", ["sw", "swa", "swa", "swa"]),
  ("swati", ["ss", "ssw", "ssw", "ssw"]),
  ("swedish", ["sv", "swe", "swe", "swe"]),
  ("tagalog", ["tl", "tgl", "tgl", "tgl"]),
  ("tahitian", ["ty", "tah", "tah", "tah"]),
  ("tajik", ["tg", "tgk", "tgk", "tgk"]),
  ("tamil", ["ta", "tam", "tam", "tam"]),
  ("tatar", ["tt", "tat", "tat", "tat"]),
  ("telugu", ["te", "tel", "tel", "tel"]),
  ("thai", ["th", "tha", "tha", "tha"]),
  ("tibetan", ["bo", "bod", "tib", "bod"]),
  ("tigrinya", ["ti", "tir", "tir", "tir"]),
  ("tonga", ["to", "ton", "ton", "ton"]),
  ("tsonga", ["ts", "tso", "tso", "tso"]),
  ("tswana", ["tn", "tsn", "tsn", "tsn"]),
  ("turkish", ["tr", "tur", "tur", "tur"]),
  ("turkmen", ["tk", "tuk", "tuk", "tuk"]),
  ("twi", ["tw", "twi", "twi", "twi"]),
  ("uighur", ["ug", "uig", "uig", "uig"]),
  ("ukrainian", ["uk", "ukr", "ukr", "ukr"]),
  ("urdu", ["ur", "urd", "urd", "urd"]),
  ("uzbek", ["uz", "uzb", "uzb", "uzb"]),
  ("venda", ["ve", "ven", "ven", "ven"]),
  ("vietnamese", ["vi", "vie", "vie", "vie"]),
  ("volapuk", ["vo", "vol", "vol", "vol"]),
  ("walloon", ["wa", "wln", "wln", "wln"]),
  ("welsh", ["cy", "cym", "wel", "cym"]),
  ("westernfrisian", ["fy", "fry", "fry", "fry"]),
  ("wolof", ["wo", "wol", "wol", "wol"]),
  ("xhosa", ["xh", "xho", "xho", "xho"]),
  ("yiddish", ["yi", "yid", "yid", "yid"]),
  ("yoruba", ["yo", "yor", "yor", "yor"]),
  ("zhuang", ["za", "zha", "zha", "zha"]),
  ("zulu", ["zu", "zul", "zul", "zul"])]

/-- The `lang_keys` list: the table's canonical names in order. -/
def LANG_KEYS : List String := LANGUAGES.map (fun p => p.1)

/-- Insertion weight of `Levenshtein.distance(part, lang, weights=(1, 20, 100))`
(the library takes the tuple as insertion, deletion, substitution). -/
def insW : Nat := 1

/-- Deletion weight of the distance call. -/
def delW : Nat := 20

/-- Substitution weight of the distance call. -/
def subW : Nat := 100

/-- One cell row of the weighted-Levenshtein dynamic program: given the
previous row over `lang` prefixes, compute the remaining cells of the next
row.  `pPrev` walks the previous row (`pPrev = prev[j-1]` when `y = lang[j-1]`),
`qPrev` is the cell just written. -/
def wlevCells (x : Char) : List Char → List Nat → Nat → List Nat
  | [], _, _ => []
  | _ :: _, [], _ => []
  | y :: ys, pPrev :: pRest, qPrev =>
    let pj := match pRest with | p :: _ => p | [] => 0
    let q := min (min (pPrev + (if x == y then 0 else subW)) (qPrev + insW))
                 (pj + delW)
    q :: wlevCells x ys pRest q

/-- Next row of the dynamic program for source character `x`. -/
def wlevStep (lang : List Char) (x : Char) (prev : List Nat) : List Nat :=
  match prev with
  | [] => []
  | p0 :: _ => (p0 + delW) :: wlevCells x lang prev (p0 + delW)

/-- Weighted Levenshtein distance transforming `s1` into `s2` with the
weights above --- the semantics of the script's
`Levenshtein.distance(part, lang, weights=(1, 20, 100))` call. -/
def wlev (s1 s2 : List Char) : Nat :=
  let init := (List.range (s2.length + 1)).map (fun j => j * insW)
  let fin := s1.foldl (fun row x => wlevStep s2 x row) init
  match fin.getLast? with
  | some v => v
  | none => 0

/-- State of the per-subtitle language scan (`min_dist`, `min_lang`,
`found`, `is_sdh` in `process_sub_names`). -/
structure ScanSt where
  min_dist : Nat := 1000000
  min_lang : Option String := none
  found : Bool := false
  is_sdh : Bool := false
deriving DecidableEq

/-- The exact-code loop `for lang, codes in LANGUAGES.items(): if part in
codes: ...` --- first language whose code list contains the token. -/
def exactLookup (part : String) : List (String × List String) → Option String
  | [] => none
  | (lang, codes) :: rest =>
    if codes.contains part then some lang else exactLookup part rest

/-- Effect of the exact-code loop on the scan state. -/
def exactStep (part : String) (st : ScanSt) : ScanSt :=
  match exactLookup part LANGUAGES with
  | some lang => { st with min_lang := some lang, found := true }
  | none => st

/-- The fuzzy loop `for lang in lang_keys`: keep the strictly-smaller
minimum among distances not exceeding 10, marking `found`. -/
def fuzzyLoop (part : String) : List String → ScanSt → ScanSt
  | [], st => st
  | lang :: rest, st =>
    let dist := wlev part.toList lang.toList
    if dist > 10 then fuzzyLoop part rest st
    else if dist < st.min_dist then
      fuzzyLoop part rest
        { st with min_dist := dist, min_lang := some lang, found := true }
    else fuzzyLoop part rest st

/-- The `for part in parts` token scan (src/jellyfin-renamer.py lines
1399-1424): an `sdh` token sets the flag and is skipped; tokens shorter than
two characters are skipped; then the exact-code loop runs, after which the
scan stops if `found` is set (whether by this token's exact match or by an
earlier fuzzy acceptance); otherwise the fuzzy loop runs and the scan
continues with the next token. -/
def tokenScan : List String → ScanSt → ScanSt
  | [], st => st
  | part :: rest, st =>
    if part == "sdh" then tokenScan rest { st with is_sdh := true }
    else if part.length < 2 then tokenScan rest st
    else
      let st1 := exactStep part st
      if st1.found then st1
      else tokenScan rest (fuzzyLoop part LANG_KEYS st1)

/-- Python `sub_name.split(" ")`: split on every single space, keeping empty
pieces. -/
def splitOnSpace (sub_name : String) : List String :=
  (splitOnChar ' ' sub_name.toList).map String.mk

/-- Language detection for one cleaned subtitle stem (lines 1386-1424): a
stem under two characters forces english before any token is examined;
otherwise the token scan runs over the space-split tokens. -/
def detectSubLang (sub_name : String) : ScanSt :=
  if sub_name.length < 2 then
    { min_lang := some "english", found := true }
  else tokenScan (splitOnSpace sub_name) {}

/-! ## TMDB resolver (`query_show`, `query_movie`, `query_tmdb_id`,
`query_tmdb_details`), with the process-wide caches and negative-lookup set
as explicit state.

The record's `title` can be `None` in Python and then flows into dictionary
keys and set membership as the value `None`, so cache keys here are
`Option String`.  The f-string keys of the season-details cache stringify
`None` as `"None"`. -/

/-- Python `TmdbShow` dataclass (one search result with all four required
fields; results missing a field are dropped by the source before they reach
any caller, so the world below supplies the post-filter list, with `genres`
already resolved through the genre table). -/
structure TmdbShow where
  name : String
  id : Int
  genre_ids : List Int := []
  genres : List String := []
  first_air_date : String
deriving DecidableEq

/-- Python `TmdbMovie` dataclass. -/
structure TmdbMovie where
  title : String
  id : Int
  genre_ids : List Int := []
  genres : List String := []
  release_date : String
deriving DecidableEq

/-- The fields of a `/tv/<id>` response the script reads. -/
structure ShowDetailsObj where
  first_air_date : Option String := none
  id : Option Int := none
deriving DecidableEq

/-- One entry of a season's `episodes` list, as read by the main loop. -/
structure EpisodeObj where
  episode_number : Option Int := none
  name : Option String := none
deriving DecidableEq

/-- The fields of a `/tv/<id>/season/<n>` response the script reads or
writes (`first_air_date` and `show_id` are merged in from the parent show
before caching). -/
structure SeasonObj where
  episodes : Option (List EpisodeObj) := none
  first_air_date : Option String := none
  show_id : Option Int := none
deriving DecidableEq

/-- The fields of a `/movie/<id>` response the script reads. -/
structure MovieObj where
  release_date : Option String := none
  id : Option Int := none
deriving DecidableEq

/-- The remote catalog, as response functions.  `none` models a transport
error, an error-flagged body, or a body missing the required key, all of
which `do_authed_get_and_handle_err` and its callers collapse to the same
outcome. -/
structure TmdbWorld where
  searchShow : Option String → Option Int → Option (List TmdbShow)
  searchMovie : Option String → Option Int → Option (List TmdbMovie)
  showDetails : Int → Option ShowDetailsObj
  seasonDetails : Int → Option Int → Option SeasonObj
  movieDetails : Int → Option MovieObj

/-- Association-list lookup with the most recent binding first (a Python
dict assignment shadows the old binding). -/
def alookup {α β : Type} [DecidableEq α] (k : α) : List (α × β) → Option β
  | [] => none
  | (a, b) :: rest => if a = k then some b else alookup k rest

/-- Set insertion (Python `set.add`). -/
def sadd {α : Type} [DecidableEq α] (x : α) (s : List α) : List α :=
  if s.contains x then s else x :: s

/-- The process-wide resolver state: the caches, the negative-lookup set,
and two counters observing the side effects the claims talk about --- every
`do_authed_get_and_handle_err` call bumps `netCalls`, and every entry into
the interactive disambiguation prompt bumps `prompts`. -/
structure TmdbSt where
  tmdb_not_found : List (Option String) := []
  tmdb_show_name_cache : List (Option String × List TmdbShow) := []
  tmdb_movie_name_cache : List (Option String × List TmdbMovie) := []
  tmdb_show_id_cache : List (Option String × Int) := []
  tmdb_movie_id_cache : List (Option String × Int) := []
  tmdb_details_tv_season_cache : List (String × SeasonObj) := []
  tmdb_details_movie_cache : List (Option String × MovieObj) := []
  netCalls : Nat := 0
  prompts : Nat := 0
deriving DecidableEq

/-- Python `query_show(name, year)` (src/jellyfin-renamer.py lines
269-312). -/
def query_show (w : TmdbWorld) (name : Option String) (year : Option Int)
    (st : TmdbSt) : List TmdbShow × TmdbSt :=
  if st.tmdb_not_found.contains name then ([], st)
  else
    match alookup name st.tmdb_show_name_cache with
    | some v => (v, st)
    | none =>
      let st := { st with netCalls := st.netCalls + 1 }
      match w.searchShow name year with
      | none => ([], { st with tmdb_not_found := sadd name st.tmdb_not_found })
      | some ret =>
        (ret, { st with tmdb_show_name_cache :=
                  (name, ret) :: st.tmdb_show_name_cache })

/-- Python `query_movie(title, year)` (lines 327-367). -/
def query_movie (w : TmdbWorld) (title : Option String) (year : Option Int)
    (st : TmdbSt) : List TmdbMovie × TmdbSt :=
  if st.tmdb_not_found.contains title then ([], st)
  else
    match alookup title st.tmdb_movie_name_cache with
    | some v => (v, st)
    | none =>
      let st := { st with netCalls := st.netCalls + 1 }
      match w.searchMovie title year with
      | none => ([], { st with tmdb_not_found := sadd title st.tmdb_not_found })
      | some ret =>
        (ret, { st with tmdb_movie_name_cache :=
                  (title, ret) :: st.tmdb_movie_name_cache })

/-- The year-match accumulation loop of `query_tmdb_id` (show branch):
`id` starts at `-1`, every candidate whose `first_air_date[:4]` equals
`str(show.year)` overwrites `id` and bumps `found`. -/
def yearFoldShow (year : Option Int) (cands : List TmdbShow) : Int × Nat :=
  cands.foldl
    (fun acc c =>
      match year with
      | none => acc
      | some y =>
        if String.mk (c.first_air_date.toList.take 4) = toString y then
          (c.id, acc.2 + 1)
        else acc)
    (-1, 0)

/-- The year-match accumulation loop of `query_tmdb_id` (movie branch). -/
def yearFoldMovie (year : Option Int) (cands : List TmdbMovie) : Int × Nat :=
  cands.foldl
    (fun acc c =>
      match year with
      | none => acc
      | some y =>
        if String.mk (c.release_date.toList.take 4) = toString y then
          (c.id, acc.2 + 1)
        else acc)
    (-1, 0)

/-- Python `query_tmdb_id(show)` (lines 710-812).  `no_interact` is the
`--no-interact` flag; `pickShow`/`pickMovie` model the interactive prompt,
giving the 0-based index the user eventually enters (the Python loop
re-prompts until the selection is in range, so an in-range hypothesis on the
picker is the terminating-prompt assumption). -/
def query_tmdb_id (w : TmdbWorld) (no_interact : Bool)
    (pickShow : List TmdbShow → Nat) (pickMovie : List TmdbMovie → Nat)
    (s : Show) (st : TmdbSt) : Option Int × TmdbSt :=
  match alookup s.title st.tmdb_show_id_cache with
  | some v => (some v, st)
  | none =>
    if s.media_type = MediaType.SHOW then
      if st.tmdb_not_found.contains s.title then (none, st)
      else
        match query_show w s.title s.year st with
        | (tmdb_shows, st) =>
          match tmdb_shows with
          | [] => (none, st)
          | c0 :: _ =>
            let idFound := yearFoldShow s.year tmdb_shows
            let idFound :=
              if no_interact ∧ tmdb_shows.length > 1 then (c0.id, 0) else idFound
            let sel :=
              if (idFound.1 = -1 ∨ idFound.2 > 1) ∧ tmdb_shows.length > 1 then
                (((tmdb_shows.getD (pickShow tmdb_shows) c0).id),
                  { st with prompts := st.prompts + 1 })
              else (c0.id, st)
            let st := { sel.2 with tmdb_show_id_cache :=
                          (s.title, sel.1) :: sel.2.tmdb_show_id_cache }
            if sel.1 = -1 then (none, st) else (some sel.1, st)
    else
      if st.tmdb_not_found.contains s.title then (none, st)
      else
        match query_movie w s.title s.year st with
        | (tmdb_movies, st) =>
          match tmdb_movies with
          | [] => (none, st)
          | c0 :: _ =>
            let idFound := yearFoldMovie s.year tmdb_movies
            let idFound :=
              if no_interact ∧ tmdb_movies.length > 1 then (c0.id, 0) else idFound
            let sel :=
              if (idFound.1 = -1 ∨ idFound.2 > 1) ∧ tmdb_movies.length > 1 then
                (((tmdb_movies.getD (pickMovie tmdb_movies) c0).id),
                  { st with prompts := st.prompts + 1 })
              else (c0.id, st)
            let st := { sel.2 with tmdb_movie_id_cache :=
                          (s.title, sel.1) :: sel.2.tmdb_movie_id_cache }
            if sel.1 = -1 then (none, st) else (some sel.1, st)

/-- Result type of `query_tmdb_details`: a season object for shows, a movie
object for movies. -/
inductive DetailsObj where
  | season (o : SeasonObj)
  | movie (o : MovieObj)
deriving DecidableEq

/-- Python f-string of an `Optional[str]` (`None` prints as `"None"`). -/
def pyStrOpt : Option String → String
  | none => "None"
  | some t => t

/-- Python `query_tmdb_details(show)` (lines 815-889).  In the show branch
the source requests `/tv/<id>/season/<season>` in both arms of its
`if show.season is None` (the `None` season is interpolated into the URL),
which the world's `seasonDetails` receives as the `Option Int` season. -/
def query_tmdb_details (w : TmdbWorld) (no_interact : Bool)
    (pickShow : List TmdbShow → Nat) (pickMovie : List TmdbMovie → Nat)
    (s : Show) (st : TmdbSt) : Option DetailsObj × TmdbSt :=
  if s.media_type = MediaType.SHOW then
    let key :=
      match s.season with
      | none => pyStrOpt s.title ++ " noseason"
      | some n => pyStrOpt s.title ++ " S" ++ toString n
    if st.tmdb_not_found.contains s.title then (none, st)
    else
      match alookup key st.tmdb_details_tv_season_cache with
      | some v => (some (DetailsObj.season v), st)
      | none =>
        match query_tmdb_id w no_interact pickShow pickMovie s st with
        | (none, st) => (none, st)
        | (some show_id, st) =>
          let st := { st with netCalls := st.netCalls + 1 }
          let show_obj := w.showDetails show_id
          let st := { st with netCalls := st.netCalls + 1 }
          match w.seasonDetails show_id s.season with
          | none =>
            (none, { st with tmdb_not_found := sadd s.title st.tmdb_not_found })
          | some so =>
            let so :=
              match show_obj with
              | none => so
              | some sho =>
                let so :=
                  match sho.first_air_date with
                  | some d => { so with first_air_date := some d }
                  | none => so
                match sho.id with
                | some i => { so with show_id := some i }
                | none => so
            (some (DetailsObj.season so),
              { st with tmdb_details_tv_season_cache :=
                  (key, so) :: st.tmdb_details_tv_season_cache })
  else
    match alookup s.title st.tmdb_details_movie_cache with
    | some v => (some (DetailsObj.movie v), st)
    | none =>
      if st.tmdb_not_found.contains s.title then (none, st)
      else
        match query_tmdb_id w no_interact pickShow pickMovie s st with
        | (none, st) => (none, st)
        | (some movie_id, st) =>
          let st := { st with netCalls := st.netCalls + 1 }
          match w.movieDetails movie_id with
          | none =>
            (none, { st with tmdb_not_found := sadd s.title st.tmdb_not_found })
          | some mo =>
            (some (DetailsObj.movie mo),
              { st with tmdb_details_movie_cache :=
                  (s.title, mo) :: st.tmdb_details_movie_cache })

/-! ## Concrete inputs used by the claim theorems -/

/-- Catalog with two show candidates for title `T`, of which exactly the
second has first-air year 2000. -/
def wYear : TmdbWorld :=
  { searchShow := fun n _ =>
      if n = some "T" then
        some [{ name := "A", id := 10, first_air_date := "1999-01-01" },
              { name := "B", id := 20, first_air_date := "2000-05-05" }]
      else none
    searchMovie := fun _ _ => none
    showDetails := fun _ => none
    seasonDetails := fun _ _ => none
    movieDetails := fun _ => none }

/-- A show record titled `T` with known year 2000. -/
def recYear : Show := { media_type := MediaType.SHOW, title := some "T", year := some 2000 }

/-- Catalog with two movie candidates for title `M` (no year on the record,
so the interactive prompt is reached). -/
def wMovie : TmdbWorld :=
  { searchShow := fun _ _ => none
    searchMovie := fun t _ =>
      if t = some "M" then
        some [{ title := "X", id := 100, release_date := "1999-01-01" },
              { title := "Y", id := 200, release_date := "1998-01-01" }]
      else none
    showDetails := fun _ => none
    seasonDetails := fun _ _ => none
    movieDetails := fun _ => none }

/-- A movie record titled `M` with no year. -/
def recMovie : Show := { media_type := MediaType.MOVIE, title := some "M" }

/-- A picker that always chooses the first candidate. -/
def pick0S : List TmdbShow → Nat := fun _ => 0

/-- A movie picker that always chooses the first candidate. -/
def pick0M : List TmdbMovie → Nat := fun _ => 0

/-- Catalog where the search for `T` succeeds with a single candidate but
every details endpoint fails. -/
def wNeg : TmdbWorld :=
  { searchShow := fun n _ =>
      if n = some "T" then
        some [{ name := "T", id := 7, first_air_date := "2001-01-01" }]
      else none
    searchMovie := fun _ _ => none
    showDetails := fun _ => none
    seasonDetails := fun _ _ => none
    movieDetails := fun _ => none }

/-- A show record titled `T`, season 1. -/
def recNeg : Show := { media_type := MediaType.SHOW, title := some "T", season := some 1 }

/-- Resolver state reached by one `query_tmdb_details` call on `recNeg`
against `wNeg`: the id was resolved and memoized, then the season-details
failure put `T` into the negative-lookup set. -/
def stNeg : TmdbSt := (query_tmdb_details wNeg false pick0S pick0M recNeg {}).2

/-- Record parsed from `T/S01E02(2020)-E03.mkv`: removing the bracketed year
from the segment makes the combined `S01E02-E03` token contiguous, so the
range branch fires and `episode_end` is set. -/
def recSEE : Show :=
  (parse_show_or_movie_path [] "T/S01E02(2020)-E03.mkv" MediaType.SHOW).getD {}

/-- The candidate list `wYear` returns for title `T`. -/
def candsYear : List TmdbShow :=
  [{ name := "A", id := 10, first_air_date := "1999-01-01" },
   { name := "B", id := 20, first_air_date := "2000-05-05" }]

/-- The state after the `wYear` search for title `T` from the empty state. -/
def stYear2 : TmdbSt := (query_show wYear (some "T") (some 2000) {}).2

/-! ## Helper lemmas -/

/-- The invariant of claim C9 on a record. -/
def EpInv (s : Show) : Prop := s.episode_end ≠ none → s.episode ≠ none

/-- The featurette extraction does not touch the episode fields. -/
theorem applyFeaturette_ep (st : PState) (part : List Char) :
    (applyFeaturette st part).1.s.episode = st.s.episode ∧
    (applyFeaturette st part).1.s.episode_end = st.s.episode_end := by
  unfold applyFeaturette
  rcases execRegex tryFeaturette part with ⟨p, _ | m⟩ <;> simp

/-- The sample extraction does not touch the episode fields. -/
theorem applySample_ep (st : PState) (part : List Char) :
    (applySample st part).1.s.episode = st.s.episode ∧
    (applySample st part).1.s.episode_end = st.s.episode_end := by
  unfold applySample
  rcases execRegex trySample part with ⟨p, _ | m⟩ <;> simp

/-- The year extraction does not touch the episode fields. -/
theorem applyYear_ep (st : PState) (part : List Char) :
    (applyYear st part).1.s.episode = st.s.episode ∧
    (applyYear st part).1.s.episode_end = st.s.episode_end := by
  unfold applyYear
  split
  · rcases execRegex tryYear part with ⟨p, _ | m⟩
    · simp
    · simp only []
      rcases pyInt (stripChars "()[] ".toList m) with _ | y <;> simp
  · simp

/-- The combined range extraction sets season, episode and episode range end
together or not at all, so it preserves the invariant. -/
theorem applySEE_inv (st : PState) (part : List Char) (h : EpInv st.s) :
    EpInv (applySEE st part).1.s := by
  unfold applySEE
  split
  · rcases execRegex trySEE part with ⟨p, _ | m⟩
    · simpa [EpInv] using h
    · simp only []
      rcases parseSEE (m.drop 1) with _ | ⟨a, b, c⟩
      · simpa [EpInv] using h
      · simp [EpInv]
  · simpa [EpInv] using h

/-- The season+episode extraction never touches the range end and can only
set the episode, so it preserves the invariant. -/
theorem applySE_inv (st : PState) (part : List Char) (h : EpInv st.s) :
    EpInv (applySE st part).1.s := by
  unfold applySE
  split
  · rcases execRegex trySE part with ⟨p, _ | m⟩
    · simpa [EpInv] using h
    · simp only []
      rcases parseSE (m.drop 1) with _ | ⟨a, b⟩
      · simpa [EpInv] using h
      · intro hee
        simp at hee ⊢
  · simpa [EpInv] using h

/-- The explicit season extraction does not touch the episode fields. -/
theorem applySeason_ep (st : PState) (part : List Char) :
    (applySeason st part).1.s.episode = st.s.episode ∧
    (applySeason st part).1.s.episode_end = st.s.episode_end := by
  unfold applySeason
  split
  · rcases execRegex trySeason part with ⟨p, _ | m⟩
    · simp
    · simp only []
      rcases pyInt (m.drop 7) with _ | n <;> simp
  · simp

/-- The resolution extraction does not touch the episode fields. -/
theorem applyResolution_ep (st : PState) (part : List Char) :
    (applyResolution st part).1.s.episode = st.s.episode ∧
    (applyResolution st part).1.s.episode_end = st.s.episode_end := by
  unfold applyResolution
  rcases h : (if st.s.resolution = none then execRegex tryRes part
      else (part, st.lastRes)) with ⟨p, _ | m⟩ <;> simp [h]

/-- Transfer of the invariant along a step that leaves both episode fields
unchanged. -/
theorem ep_preserved_inv {s1 s2 : Show} (he : s2.episode = s1.episode)
    (hee : s2.episode_end = s1.episode_end) (h : EpInv s1) : EpInv s2 := by
  unfold EpInv at h ⊢
  rw [he, hee]
  exact h

/-- The whole extraction chain preserves the invariant. -/
theorem applyAll_inv (st : PState) (part : List Char) (h : EpInv st.s) :
    EpInv (applyAll st part).1.s := by
  simp only [applyAll]
  exact ep_preserved_inv (applyResolution_ep _ _).1 (applyResolution_ep _ _).2
    (ep_preserved_inv (applySeason_ep _ _).1 (applySeason_ep _ _).2
      (applySE_inv _ _ (applySEE_inv _ _
        (ep_preserved_inv (applyYear_ep _ _).1 (applyYear_ep _ _).2
          (ep_preserved_inv (applySample_ep _ _).1 (applySample_ep _ _).2
            (ep_preserved_inv (applyFeaturette_ep _ _).1
              (applyFeaturette_ep _ _).2 h))))))

/-- The final-segment name handling does not touch the episode fields. -/
theorem applyLastName_ep (rp : List (List Char)) (st : PState) (part : List Char) :
    (applyLastName rp st part).s.episode = st.s.episode ∧
    (applyLastName rp st part).s.episode_end = st.s.episode_end := by
  unfold applyLastName
  split
  · rcases rfindChar '(' part with i | i <;> simp
  · split <;> simp

/-- The parser loop preserves the invariant. -/
theorem parseLoop_inv (rp : List (List Char)) :
    ∀ (fuel : Nat) (parts : List (List Char)) (st : PState),
    EpInv st.s → EpInv ((parseLoop rp fuel parts st).s) := by
  intro fuel
  induction fuel with
  | zero => intro parts st h; simpa [parseLoop] using h
  | succ n ih =>
    intro parts st h
    match parts with
    | [] => simpa [parseLoop] using h
    | part :: parts =>
      simp only [parseLoop]
      split
      · exact ih _ _ h
      · split
        · exact ih _ _ h
        · split
          · apply ih
            apply ep_preserved_inv _ _
              (applyAll_inv st
                (List.foldl (fun p d => denyErase d p)
                  (List.foldl (fun p r => eraseSub r p)
                    ((replSep part).filter allowedChar) st.removedParts) rp)
                h) <;> simp
          · split
            · exact ep_preserved_inv (applyLastName_ep _ _ _).1
                (applyLastName_ep _ _ _).2 (applyAll_inv _ _ h)
            · exact ih _ _ (applyAll_inv _ _ h)

/-- A fold of tag appends does not touch the episode fields. -/
theorem featuretteFold_ep (pathT : List Char) :
    ∀ (dets : List (String × FeaturetteTag)) (s : Show),
    (dets.foldl
        (fun s pt =>
          if icaseContains pt.1.toList pathT then
            { s with featurette_tags := s.featurette_tags ++ [pt.2] }
          else s) s).episode = s.episode ∧
    (dets.foldl
        (fun s pt =>
          if icaseContains pt.1.toList pathT then
            { s with featurette_tags := s.featurette_tags ++ [pt.2] }
          else s) s).episode_end = s.episode_end := by
  intro dets
  induction dets with
  | nil => intro s; exact ⟨rfl, rfl⟩
  | cons pt rest ih =>
    intro s
    simp only [List.foldl_cons]
    split
    · exact ⟨(ih _).1.trans rfl, (ih _).2.trans rfl⟩
    · exact ih s

/-- The featurette keyword re-scan does not touch the episode fields. -/
theorem applyFeaturetteTags_ep (s : Show) (pathT : List Char) :
    (applyFeaturetteTags s pathT).episode = s.episode ∧
    (applyFeaturetteTags s pathT).episode_end = s.episode_end := by
  unfold applyFeaturetteTags
  exact featuretteFold_ep pathT featuretteDetectors s

/-- The first-match subtitle loop is `List.find?` with the original list as
fallback. -/
theorem subFilterLoop_eq_find (se : String) (orig : List String) :
    ∀ l : List String, subFilterLoop se orig l =
      match l.find? (subHasSE se) with
      | some sub => [sub]
      | none => orig := by
  intro l
  induction l with
  | nil => simp [subFilterLoop, List.find?]
  | cons sub rest ih =>
    by_cases h : subHasSE se sub
    · simp [subFilterLoop, List.find?, h]
    · simp only [subFilterLoop, List.find?]
      rw [if_neg h]
      simp only [Bool.not_eq_true] at h
      rw [h]
      exact ih

/-! ## Claim theorems -/

set_option maxRecDepth 4000

/-- C4: extraction of `ShowName (2020)/Season 01/ShowName - S01E02.mkv` in
show mode yields title `ShowName`, year 2020, season 1, episode 2, and the
main classification `ShowType.SHOW`. -/
theorem C4_extract_show_path :
    ((parse_show_or_movie_path []
        "ShowName (2020)/Season 01/ShowName - S01E02.mkv" MediaType.SHOW).map
      (fun s => (s.title, s.year, s.season, s.episode, s.show_type))) =
    some (some "ShowName", some 2020, some 1, some 2, some ShowType.SHOW) := by
  decide

/-- C8: extraction of `Movie.Title.2019.1080p.mkv` in movie mode yields
title `Movie Title`, year 2019, and resolution `1080p`. -/
theorem C8_extract_movie_path :
    ((parse_show_or_movie_path [] "Movie.Title.2019.1080p.mkv"
        MediaType.MOVIE).map
      (fun s => (s.title, s.year, s.resolution))) =
    some (some "Movie Title", some 2019, some "1080p") := by
  decide

/-- C2 (code evaluation at the failing input): with candidates
`[id 10 (1999), id 20 (2000)]` for a record whose year is 2000, exactly one
candidate's year matches, yet `query_tmdb_id` returns the first candidate's
id 10 --- the `else` arm that follows the prompt guard overwrites the
year-matched id with `tmdb_shows[0].id` whenever the prompt is skipped. -/
theorem C2_code_eval :
    yearFoldShow recYear.year
        [{ name := "A", id := 10, first_air_date := "1999-01-01" },
         { name := "B", id := 20, first_air_date := "2000-05-05" }] = (20, 1) ∧
    (query_tmdb_id wYear false pick0S pick0M recYear {}).1 = some 10 ∧
    some (10 : Int) ≠ some 20 := by
  decide

/-- C3 (code evaluation at the failing input): a first `query_tmdb_id` call
on a movie record prompts once and memoizes id 100 in
`tmdb_movie_id_cache`, but a second identical call prompts again --- the
cache-first check reads `tmdb_show_id_cache` for both media kinds, so the
movie id cache is never consulted and disambiguation re-runs. -/
theorem C3_code_eval :
    (query_tmdb_id wMovie false pick0S pick0M recMovie {}).1 = some 100 ∧
    alookup (some "M")
      (query_tmdb_id wMovie false pick0S pick0M recMovie {}).2.tmdb_movie_id_cache =
      some 100 ∧
    (query_tmdb_id wMovie false pick0S pick0M recMovie {}).2.prompts = 1 ∧
    (query_tmdb_id wMovie false pick0S pick0M recMovie
        (query_tmdb_id wMovie false pick0S pick0M recMovie {}).2).2.prompts = 2 := by
  decide

/-- C7 counterexample: in the run captured by `stNeg` the title `T` is in
the negative-lookup set, yet a subsequent id-resolution call does not
short-circuit to NotFound --- it returns the id memoized before the title
was negatively marked (it still makes no network call). -/
theorem C7_counterexample :
    stNeg.tmdb_not_found.contains (some "T") = true ∧
    (query_tmdb_id wNeg false pick0S pick0M recNeg stNeg).1 = some 7 ∧
    (query_tmdb_id wNeg false pick0S pick0M recNeg stNeg).1 ≠ none := by
  decide

/-- C1 counterexample: with title `ShowName` and two candidate subtitles
both containing the title, the claim says the full candidate list is left
intact; the code narrows it to the first subtitle containing the
season-episode token regardless, because the `matches_name` flag is never
consulted. -/
theorem C1_counterexample :
    containsSub "ShowName - S01E02.srt" "ShowName" = true ∧
    containsSub "ShowName - S01E03.srt" "ShowName" = true ∧
    subtitleFilter "ShowName" none (some 1) (some 2)
        ["ShowName - S01E02.srt", "ShowName - S01E03.srt"] =
      ["ShowName - S01E02.srt"] ∧
    subtitleFilter "ShowName" none (some 1) (some 2)
        ["ShowName - S01E02.srt", "ShowName - S01E03.srt"] ≠
      ["ShowName - S01E02.srt", "ShowName - S01E03.srt"] := by
  decide

/-- C5 counterexample: a featurette record tagged with both interview and
making-of (realized by parsing a path containing both keywords and neither
`behind the` nor the other keywords) is placed in `interview`, not in
`behind the scenes` --- interview outranks making-of in the chain, so the
two top buckets do not share a priority. -/
theorem C5_counterexample :
    ((parse_show_or_movie_path [] "ShowName/Featurettes/Making Of Interview.mkv"
        MediaType.SHOW).map
      (fun s => (s.show_type, s.featurette_tags,
        featuretteBucket s.featurette_tags))) =
      some (some ShowType.FEATURETTE,
        [FeaturetteTag.INTERVIEW, FeaturetteTag.MAKING_OF], "interview") ∧
    "interview" ≠ "behind the scenes" := by
  decide

/-- C6 counterexample: the token `portuguese` of the stem `portuguese es`
is accepted by the fuzzy match (it is no exact code, and its weighted
distance to the canonical name `portuguese` is 0, under any reading of the
weight tuple, setting `found`), yet the scan does not stop there: the next
token `es` is still examined by the exact-code loop and changes the
detected language to spanish. -/
theorem C6_counterexample :
    exactLookup "portuguese" LANGUAGES = none ∧
    (tokenScan ["portuguese"] {}).found = true ∧
    (tokenScan ["portuguese"] {}).min_lang = some "portuguese" ∧
    (detectSubLang "portuguese es").min_lang = some "spanish" ∧
    some "spanish" ≠ some "portuguese" := by
  decide

/-- C9: every record the extractor returns satisfies the invariant that the
episode range end is set only when the episode is set; no branch (including
the combined `S<d>E<d>-E<d>` one, whose failed splits and conversions are
swallowed before any field assignment) can set the range end alone. -/
theorem C9_episode_end_invariant (removeParts : List String) (path : String)
    (mt : MediaType) (s : Show)
    (hp : parse_show_or_movie_path removeParts path mt = some s)
    (he : s.episode_end.isSome) : s.episode.isSome := by
  simp only [parse_show_or_movie_path] at hp
  split at hp
  · rw [Option.some_inj] at hp
    subst hp
    rw [Option.isSome_iff_ne_none] at he ⊢
    revert he
    show EpInv _
    split
    · refine ep_preserved_inv (applyFeaturetteTags_ep _ _).1
        (applyFeaturetteTags_ep _ _).2 (parseLoop_inv _ _ _ _ ?_)
      intro hne
      exact absurd rfl hne
    · refine parseLoop_inv _ _ _ _ ?_
      intro hne
      exact absurd rfl hne
  · exact absurd hp (by simp)

/-- Witness for C9 at the path `T/S01E02(2020)-E03.mkv`, where the range
branch fires (`recSEE` has season 1, episode 2, episode end 3). -/
theorem C9_episode_end_invariant_witness :
    parse_show_or_movie_path [] "T/S01E02(2020)-E03.mkv" MediaType.SHOW =
      some recSEE ∧
    recSEE.episode_end.isSome = true ∧ recSEE.episode.isSome = true :=
  ⟨by decide, by decide,
    C9_episode_end_invariant [] "T/S01E02(2020)-E03.mkv" MediaType.SHOW recSEE
      (by decide) (by decide)⟩

/-- C1 amended: the name-match check is computed but never consulted, so
whenever more than one candidate subtitle is attached, the candidate set is
narrowed to the first subtitle whose path contains the zero-padded
season+episode token (in original or lowercase form) when one exists ---
regardless of whether any subtitle path contains the record's title or
resolved name --- and is left intact only when no subtitle contains the
token. -/
theorem C1_amended_filter (title : String) (name : Option String)
    (season episode : Option Int) (subs : List String)
    (hlen : subs.length > 1) :
    subtitleFilter title name season episode subs =
      (match subs.find? (subHasSE (seToken season episode)) with
       | some sub => [sub]
       | none => subs) := by
  unfold subtitleFilter
  rw [if_pos hlen]
  exact subFilterLoop_eq_find _ _ _

/-- Witness for C1's amended claim at the counterexample's inputs. -/
theorem C1_amended_filter_witness :
    (["ShowName - S01E02.srt", "ShowName - S01E03.srt"] : List String).length > 1 ∧
    subtitleFilter "ShowName" none (some 1) (some 2)
        ["ShowName - S01E02.srt", "ShowName - S01E03.srt"] =
      (match (["ShowName - S01E02.srt", "ShowName - S01E03.srt"] :
            List String).find? (subHasSE (seToken (some 1) (some 2))) with
       | some sub => [sub]
       | none => ["ShowName - S01E02.srt", "ShowName - S01E03.srt"]) :=
  ⟨by decide,
    C1_amended_filter "ShowName" none (some 1) (some 2)
      ["ShowName - S01E02.srt", "ShowName - S01E03.srt"] (by decide)⟩

/-- C5 amended: for a featurette record with at least one tag, the bucket is
decided by the first matching tag in the fixed priority order
behind-the-scenes, interview, making-of, deleted-scene, extra, promo,
teaser, trailer, webisode --- behind-the-scenes and making-of both map to
`behind the scenes` but do not share a priority: interview sits between
them, so a record tagged with both interview and making-of is placed in
`interview`. -/
theorem C5_amended_bucket (tags : List FeaturetteTag) (h : tags ≠ []) :
    featuretteBucket tags =
      ((bucketPriority.find? (fun t => tags.contains t)).map tagBucket).getD
        "other" := by
  have hlen : ¬ tags.length = 0 := by
    simpa using h
  unfold featuretteBucket bucketPriority
  rw [if_neg hlen]
  by_cases h1 : FeaturetteTag.BEHIND_THE_SCENES ∈ tags
  · simp [List.find?, h1, tagBucket]
  by_cases h2 : FeaturetteTag.INTERVIEW ∈ tags
  · simp [List.find?, h1, h2, tagBucket]
  by_cases h3 : FeaturetteTag.MAKING_OF ∈ tags
  · simp [List.find?, h1, h2, h3, tagBucket]
  by_cases h4 : FeaturetteTag.DELETED_SCENE ∈ tags
  · simp [List.find?, h1, h2, h3, h4, tagBucket]
  by_cases h5 : FeaturetteTag.EXTRA ∈ tags
  · simp [List.find?, h1, h2, h3, h4, h5, tagBucket]
  by_cases h6 : FeaturetteTag.PROMO ∈ tags
  · simp [List.find?, h1, h2, h3, h4, h5, h6, tagBucket]
  by_cases h7 : FeaturetteTag.TEASER ∈ tags
  · simp [List.find?, h1, h2, h3, h4, h5, h6, h7, tagBucket]
  by_cases h8 : FeaturetteTag.TRAILER ∈ tags
  · simp [List.find?, h1, h2, h3, h4, h5, h6, h7, h8, tagBucket]
  by_cases h9 : FeaturetteTag.WEBISODE ∈ tags
  · simp [List.find?, h1, h2, h3, h4, h5, h6, h7, h8, h9, tagBucket]
  simp [List.find?, h1, h2, h3, h4, h5, h6, h7, h8, h9, tagBucket]

/-- Witness for C5's amended claim at the counterexample's tag list. -/
theorem C5_amended_bucket_witness :
    ([FeaturetteTag.INTERVIEW, FeaturetteTag.MAKING_OF] :
        List FeaturetteTag) ≠ [] ∧
    featuretteBucket [FeaturetteTag.INTERVIEW, FeaturetteTag.MAKING_OF] =
      ((bucketPriority.find?
          (fun t => ([FeaturetteTag.INTERVIEW,
            FeaturetteTag.MAKING_OF] : List FeaturetteTag).contains t)).map
        tagBucket).getD "other" :=
  ⟨by decide,
    C5_amended_bucket [FeaturetteTag.INTERVIEW, FeaturetteTag.MAKING_OF]
      (by decide)⟩

/-- C6 amended: the scan stops at the first token that is neither `sdh` nor
shorter than two characters and whose state after the exact-code loop has
`found` set.  A token accepted by exact code equality therefore stops the
scan at itself; a token accepted only by the fuzzy match does not stop the
scan --- the next non-skipped token still runs the exact-code loop, which
may change the detected language, and only then does the scan stop. -/
theorem C6_amended_scan (p : String) (rest : List String) (st : ScanSt)
    (hsdh : p ≠ "sdh") (hlen : ¬ p.length < 2)
    (hfound : (exactStep p st).found = true) :
    tokenScan (p :: rest) st = exactStep p st := by
  have hbeq : (p == "sdh") = false := by
    simpa using hsdh
  simp only [tokenScan, hbeq, Bool.false_eq_true, if_false, if_neg hlen,
    hfound, if_true]

/-- Witness for C6's amended claim: after the fuzzy acceptance of
`portuguese` the next token `es` stops the scan with its exact-match
override. -/
theorem C6_amended_scan_witness :
    ("es" : String) ≠ "sdh" ∧ ¬ ("es" : String).length < 2 ∧
    (exactStep "es" (tokenScan ["portuguese"] {})).found = true ∧
    tokenScan ["es", "xx"] (tokenScan ["portuguese"] {}) =
      exactStep "es" (tokenScan ["portuguese"] {}) :=
  ⟨by decide, by decide, by decide,
    C6_amended_scan "es" ["xx"] (tokenScan ["portuguese"] {}) (by decide)
      (by decide) (by decide)⟩

/-- C7 amended: once a title is in the negative-lookup set, no subsequent
resolution call for it issues a network request or changes any state ---
searches return an empty candidate list and show-details resolution returns
NotFound, while id resolution returns the id memoized (in the show id cache)
before the title was negatively marked, if any, and NotFound otherwise, and
movie-details resolution likewise returns its previously cached object if
any and NotFound otherwise. -/
theorem C7_amended_negative_lookup (w : TmdbWorld) (ni : Bool)
    (pS : List TmdbShow → Nat) (pM : List TmdbMovie → Nat) (s : Show)
    (st : TmdbSt) (h : st.tmdb_not_found.contains s.title = true) :
    query_show w s.title s.year st = ([], st) ∧
    query_movie w s.title s.year st = ([], st) ∧
    query_tmdb_id w ni pS pM s st = (alookup s.title st.tmdb_show_id_cache, st) ∧
    (s.media_type = MediaType.SHOW →
      query_tmdb_details w ni pS pM s st = (none, st)) ∧
    (s.media_type ≠ MediaType.SHOW →
      query_tmdb_details w ni pS pM s st =
        ((alookup s.title st.tmdb_details_movie_cache).map DetailsObj.movie,
          st)) := by
  refine ⟨?_, ?_, ?_, ?_, ?_⟩
  · unfold query_show
    rw [if_pos h]
  · unfold query_movie
    rw [if_pos h]
  · unfold query_tmdb_id
    cases hc : alookup s.title st.tmdb_show_id_cache with
    | some v => simp only [hc]
    | none =>
      simp only [hc]
      split <;> rfl
  · intro hm
    unfold query_tmdb_details
    rw [if_pos hm, if_pos h]
  · intro hm
    unfold query_tmdb_details
    rw [if_neg hm]
    cases hc : alookup s.title st.tmdb_details_movie_cache with
    | some v => simp only [hc, Option.map]
    | none =>
      simp only [hc, Option.map]
      rw [if_pos h]

/-- Witness for C7's amended claim at a concrete negatively-marked state. -/
theorem C7_amended_negative_lookup_witness :
    stNeg.tmdb_not_found.contains recNeg.title = true ∧
    (query_show wNeg recNeg.title recNeg.year stNeg = ([], stNeg) ∧
     query_movie wNeg recNeg.title recNeg.year stNeg = ([], stNeg) ∧
     query_tmdb_id wNeg false pick0S pick0M recNeg stNeg =
       (alookup recNeg.title stNeg.tmdb_show_id_cache, stNeg) ∧
     (recNeg.media_type = MediaType.SHOW →
       query_tmdb_details wNeg false pick0S pick0M recNeg stNeg =
         (none, stNeg)) ∧
     (recNeg.media_type ≠ MediaType.SHOW →
       query_tmdb_details wNeg false pick0S pick0M recNeg stNeg =
         ((alookup recNeg.title stNeg.tmdb_details_movie_cache).map
            DetailsObj.movie, stNeg))) :=
  ⟨by decide,
    C7_amended_negative_lookup wNeg false pick0S pick0M recNeg stNeg
      (by decide)⟩

/-- C10: whenever the catalog search (performed because the show id cache
has no entry for the title) yields a nonempty candidate list none of whose
ids equals the `-1` sentinel, `query_tmdb_id` returns the id of one of those
candidates --- under the assumption that the interactive prompt, when
reached, eventually receives an in-range selection; in particular the
sentinel never escapes and the final `id == -1` guard is not taken. -/
theorem C10_id_from_candidates (w : TmdbWorld) (ni : Bool)
    (pS : List TmdbShow → Nat) (pM : List TmdbMovie → Nat) (s : Show)
    (st : TmdbSt)
    (hpS : ∀ l : List TmdbShow, l ≠ [] → pS l < l.length)
    (hpM : ∀ l : List TmdbMovie, l ≠ [] → pM l < l.length)
    (hcache : alookup s.title st.tmdb_show_id_cache = none) :
    (s.media_type = MediaType.SHOW →
      ∀ cands st2, query_show w s.title s.year st = (cands, st2) →
        cands ≠ [] → (∀ c ∈ cands, c.id ≠ -1) →
        ∃ c ∈ cands, (query_tmdb_id w ni pS pM s st).1 = some c.id) ∧
    (s.media_type ≠ MediaType.SHOW →
      ∀ cands st2, query_movie w s.title s.year st = (cands, st2) →
        cands ≠ [] → (∀ c ∈ cands, c.id ≠ -1) →
        ∃ c ∈ cands, (query_tmdb_id w ni pS pM s st).1 = some c.id) := by
  constructor
  · intro hm cands st2 hq hne hnid
    unfold query_tmdb_id
    rw [hcache]
    simp only [hm, if_pos]
    by_cases hnf : st.tmdb_not_found.contains s.title = true
    · exfalso
      apply hne
      unfold query_show at hq
      rw [if_pos hnf] at hq
      injection hq with h1 h2
      exact h1.symm
    · simp only [Bool.not_eq_true] at hnf
      rw [hnf]
      simp only [Bool.false_eq_true, if_false]
      rw [hq]
      match cands, hne with
      | c0 :: rest, _ =>
        simp only []
        split
        · split
          · have hlt : pS (c0 :: rest) < (c0 :: rest).length :=
              hpS (c0 :: rest) (by simp)
            have hmem : (c0 :: rest).getD (pS (c0 :: rest)) c0 ∈ c0 :: rest := by
              rw [List.getD_eq_getElem (c0 :: rest) c0 hlt]
              exact List.getElem_mem hlt
            rw [if_neg (hnid _ hmem)]
            exact ⟨_, hmem, rfl⟩
          · rw [if_neg (hnid c0 (by simp))]
            exact ⟨c0, by simp, rfl⟩
        · split
          · have hlt : pS (c0 :: rest) < (c0 :: rest).length :=
              hpS (c0 :: rest) (by simp)
            have hmem : (c0 :: rest).getD (pS (c0 :: rest)) c0 ∈ c0 :: rest := by
              rw [List.getD_eq_getElem (c0 :: rest) c0 hlt]
              exact List.getElem_mem hlt
            rw [if_neg (hnid _ hmem)]
            exact ⟨_, hmem, rfl⟩
          · rw [if_neg (hnid c0 (by simp))]
            exact ⟨c0, by simp, rfl⟩
  · intro hm cands st2 hq hne hnid
    unfold query_tmdb_id
    rw [hcache]
    simp only [hm, if_neg]
    by_cases hnf : st.tmdb_not_found.contains s.title = true
    · exfalso
      apply hne
      unfold query_movie at hq
      rw [if_pos hnf] at hq
      injection hq with h1 h2
      exact h1.symm
    · simp only [Bool.not_eq_true] at hnf
      rw [hnf]
      simp only [Bool.false_eq_true, if_false]
      rw [hq]
      match cands, hne with
      | c0 :: rest, _ =>
        simp only []
        split
        · split
          · have hlt : pM (c0 :: rest) < (c0 :: rest).length :=
              hpM (c0 :: rest) (by simp)
            have hmem : (c0 :: rest).getD (pM (c0 :: rest)) c0 ∈ c0 :: rest := by
              rw [List.getD_eq_getElem (c0 :: rest) c0 hlt]
              exact List.getElem_mem hlt
            rw [if_neg (hnid _ hmem)]
            exact ⟨_, hmem, rfl⟩
          · rw [if_neg (hnid c0 (by simp))]
            exact ⟨c0, by simp, rfl⟩
        · split
          · have hlt : pM (c0 :: rest) < (c0 :: rest).length :=
              hpM (c0 :: rest) (by simp)
            have hmem : (c0 :: rest).getD (pM (c0 :: rest)) c0 ∈ c0 :: rest := by
              rw [List.getD_eq_getElem (c0 :: rest) c0 hlt]
              exact List.getElem_mem hlt
            rw [if_neg (hnid _ hmem)]
            exact ⟨_, hmem, rfl⟩
          · rw [if_neg (hnid c0 (by simp))]
            exact ⟨c0, by simp, rfl⟩

/-- Witness for C10: against `wYear` from the empty state the search yields
`candsYear = [id 10, id 20]`, and `query_tmdb_id` returns one of those ids. -/
theorem C10_id_from_candidates_witness :
    ∃ c ∈ candsYear,
      (query_tmdb_id wYear false pick0S pick0M recYear {}).1 = some c.id :=
  (C10_id_from_candidates wYear false pick0S pick0M recYear {}
      (fun l hl => by cases l with
        | nil => exact absurd rfl hl
        | cons a t => simp [pick0S])
      (fun l hl => by cases l with
        | nil => exact absurd rfl hl
        | cons a t => simp [pick0M])
      (by decide)).1 (by decide) candsYear stYear2 (by decide) (by decide)
    (by decide)

end JellyfinRenamer
